import Mathlib

/-!
Shallow embedding of the nl80211 query library (src/socket.rs and
src/async_socket.rs): a generic-netlink dump protocol engine.  Pure data
from the wire is modelled as explicit lists; the response stream that the
transport's receive handle yields is a list of Except values (a stream item
is either a received message header or a transport-level receive failure).
The dump loop of Socket::get_info_vec and AsyncSocket::get_info_vec is
translated into structural recursion over that list; Rust panics are made
visible as a dedicated outcome constructor so that statements about
"typed error versus process-terminating fault" can be made.
-/

set_option autoImplicit false

namespace NlWifi

/-- Message kind classification of the external netlink collaborator
(neli's Nlmsg constant set): NLMSG_NOOP = 1, NLMSG_ERROR = 2,
NLMSG_DONE = 3, NLMSG_OVERRUN = 4, every other value is an
unrecognized constant. -/
inductive Nlmsg where
  | noop
  | error
  | done
  | overrun
  | unrecognizedConst (value : Nat)
  deriving DecidableEq

/-- Conversion from a raw 16-bit message type field to the Nlmsg
classification, mirroring neli's From impl for u16. -/
def Nlmsg.fromU16 (n : Nat) : Nlmsg :=
  if n = 1 then .noop
  else if n = 2 then .error
  else if n = 3 then .done
  else if n = 4 then .overrun
  else .unrecognizedConst n

/-- Modelled from the spec: the crate-root command enumeration (the crate
root file is not under src); the closed set of operation codes
{get-interface, get-station, get-scan}. -/
inductive Nl80211Cmd where
  | cmdGetInterface
  | cmdGetStation
  | cmdGetScan
  deriving DecidableEq

/-- Modelled from the spec: the crate-root attribute tag enumeration (the
crate root file is not under src); only the interface-index tag is ever
encoded by the message builder, all other protocol tags are collapsed
into one constructor carrying their raw code. -/
inductive Nl80211Attr where
  | attrIfindex
  | otherTag (code : Nat)
  deriving DecidableEq

/-- Modelled from the spec: the crate-root constant carrying the well-known
generic-netlink family name of the nl80211 subsystem. -/
def NL_80211_GENL_NAME : String := "nl80211"

/-- Modelled from the spec: the crate-root constant carrying the protocol
version byte placed in every request. -/
def NL_80211_GENL_VERSION : Nat := 1

/-- One encoded attribute of a request: a tag and the scalar payload
(the only encode case the library needs is the i32 interface index). -/
structure Nlattr where
  nlaType : Nl80211Attr
  nlaPayload : Int
  deriving DecidableEq

/-- The generic-netlink message header built by GenlmsghdrBuilder:
command code, protocol version and attribute list. -/
structure Genlmsghdr where
  cmd : Nl80211Cmd
  version : Nat
  attrs : List Nlattr
  deriving DecidableEq

/-- Request flags passed to the router's send operation. -/
inductive NlmF where
  | request
  | dump
  deriving DecidableEq

/-- Everything observable about a request handed to the transport's send
operation: the resolved family identifier, the flag set and the payload. -/
structure SentRequest where
  familyId : Nat
  flags : List NlmF
  payload : Genlmsghdr
  deriving DecidableEq

/-- A received outer message header (neli's Nlmsghdr as used by the dump
loop): the raw nl_type discriminant and the optional genl payload, whose
attribute handle is abstracted as a value of type A (get_payload returns
an Option). -/
structure Nlmsghdr (A : Type) where
  nlType : Nat
  payload : Option A
  deriving DecidableEq

/-- Result of one dump call.  Rust's Result is split further: a panic is
not a value in Rust, but the embedding reifies it so that claims about
process-terminating faults can be stated.  E is the decode-error type
(neli's DeError), R the decoded record type. -/
inductive DumpOutcome (E R : Type) where
  | ok (records : List R)
  | err (e : E)
  | panicked (message : String)
  deriving DecidableEq

/-- A connection: the transport handle and the resolved numeric family
identifier (Socket in src/socket.rs). -/
structure Socket (Router : Type) where
  router : Router
  familyId : Nat
  deriving DecidableEq

/-- The cooperative-variant connection (AsyncSocket in
src/async_socket.rs). -/
structure AsyncSocket (Router : Type) where
  router : Router
  familyId : Nat
  deriving DecidableEq

/-- Socket::connect: establish the transport, resolve the family name,
and construct the connection.  The two external effects are passed in as
values: the transport connect result and the family resolver. -/
def Socket.connect {Router E : Type} (connectTransport : Except E (Router × Unit))
    (resolveGenlFamily : Router → String → Except E Nat) :
    Except E (Socket Router) :=
  match connectTransport with
  | .error e => .error e
  | .ok (sock, _) =>
    match resolveGenlFamily sock NL_80211_GENL_NAME with
    | .error e => .error e
    | .ok familyId => .ok { router := sock, familyId := familyId }

/-- The request message built at the top of Socket::get_info_vec and
handed to the router's send call: command, protocol version, and an
attribute list that is empty unless an interface index was supplied, in
which case it holds exactly one AttrIfindex attribute. -/
def Socket.sentRequest {Router : Type} (sock : Socket Router)
    (interfaceIndex : Option Int) (cmd : Nl80211Cmd) : SentRequest :=
  { familyId := sock.familyId
    flags := [NlmF.request, NlmF.dump]
    payload :=
      { cmd := cmd
        version := NL_80211_GENL_VERSION
        attrs :=
          match interfaceIndex with
          | none => []
          | some i => [{ nlaType := Nl80211Attr.attrIfindex, nlaPayload := i }] } }

/-- The receive loop of Socket::get_info_vec (src/socket.rs lines 75-95):
iterate the response stream; a stream item that is an Err is unwrapped
(panic); classify each message by Nlmsg::from(nl_type): Noop is skipped,
Error panics with the literal message "Error", Done breaks and returns the
accumulator, every other kind has its payload unwrapped (panic when
absent) and decoded (a decode failure propagates as a typed error via ?),
the record being pushed onto the accumulator.  Stream exhaustion ends the
for loop and returns the accumulator. -/
def Socket.getInfoLoop {A E R RE : Type} (decode : A → Except E R)
    (acc : List R) : List (Except RE (Nlmsghdr A)) → DumpOutcome E R
  | [] => .ok acc
  | .error _ :: _ => .panicked "called Result unwrap on an Err value"
  | .ok response :: rest =>
    match Nlmsg.fromU16 response.nlType with
    | .noop => Socket.getInfoLoop decode acc rest
    | .error => .panicked "Error"
    | .done => .ok acc
    | _ =>
      match response.payload with
      | none => .panicked "called Option unwrap on a None value"
      | some attrHandle =>
        match decode attrHandle with
        | .error e => .err e
        | .ok record => Socket.getInfoLoop decode (acc ++ [record]) rest

/-- Socket::get_info_vec with the connection state threaded explicitly:
the observable behaviour is the request given to send plus the dump
outcome, and the connection that the &mut self borrow hands back (the
method assigns to no field, so the state is rebuilt from the same
fields). -/
def Socket.getInfoVecS {A E R RE Router : Type} (decode : A → Except E R)
    (sock : Socket Router) (interfaceIndex : Option Int) (cmd : Nl80211Cmd)
    (stream : List (Except RE (Nlmsghdr A))) :
    (SentRequest × DumpOutcome E R) × Socket Router :=
  ((Socket.sentRequest sock interfaceIndex cmd,
    Socket.getInfoLoop decode [] stream),
   { router := sock.router, familyId := sock.familyId })

/-- Socket::get_interfaces_info: a dump with no filter attribute and the
get-interface command. -/
def Socket.getInterfacesInfo {A E R RE Router : Type} (decode : A → Except E R)
    (sock : Socket Router) (stream : List (Except RE (Nlmsghdr A))) :
    (SentRequest × DumpOutcome E R) × Socket Router :=
  Socket.getInfoVecS decode sock none Nl80211Cmd.cmdGetInterface stream

/-- Socket::get_station_info: a dump filtered by interface index with the
get-station command. -/
def Socket.getStationInfo {A E R RE Router : Type} (decode : A → Except E R)
    (sock : Socket Router) (interfaceIndex : Int)
    (stream : List (Except RE (Nlmsghdr A))) :
    (SentRequest × DumpOutcome E R) × Socket Router :=
  Socket.getInfoVecS decode sock (some interfaceIndex) Nl80211Cmd.cmdGetStation stream

/-- Socket::get_bss_info: a dump filtered by interface index with the
get-scan command. -/
def Socket.getBssInfo {A E R RE Router : Type} (decode : A → Except E R)
    (sock : Socket Router) (interfaceIndex : Int)
    (stream : List (Except RE (Nlmsghdr A))) :
    (SentRequest × DumpOutcome E R) × Socket Router :=
  Socket.getInfoVecS decode sock (some interfaceIndex) Nl80211Cmd.cmdGetScan stream

/-- The request message built at the top of AsyncSocket::get_info_vec
(src/async_socket.rs lines 48-70), translated separately from its own
source text. -/
def AsyncSocket.sentRequest {Router : Type} (sock : AsyncSocket Router)
    (interfaceIndex : Option Int) (cmd : Nl80211Cmd) : SentRequest :=
  { familyId := sock.familyId
    flags := [NlmF.request, NlmF.dump]
    payload :=
      { cmd := cmd
        version := NL_80211_GENL_VERSION
        attrs :=
          match interfaceIndex with
          | none => []
          | some i => [{ nlaType := Nl80211Attr.attrIfindex, nlaPayload := i }] } }

/-- The receive loop of AsyncSocket::get_info_vec (src/async_socket.rs
lines 81-101): a while-let over receive_handle.next().await with the same
per-message classification as the blocking variant; the await is the sole
suspension point and has no observable content, so the loop body is the
same recursion. -/
def AsyncSocket.getInfoLoop {A E R RE : Type} (decode : A → Except E R)
    (acc : List R) : List (Except RE (Nlmsghdr A)) → DumpOutcome E R
  | [] => .ok acc
  | .error _ :: _ => .panicked "called Result unwrap on an Err value"
  | .ok response :: rest =>
    match Nlmsg.fromU16 response.nlType with
    | .noop => AsyncSocket.getInfoLoop decode acc rest
    | .error => .panicked "Error"
    | .done => .ok acc
    | _ =>
      match response.payload with
      | none => .panicked "called Option unwrap on a None value"
      | some attrHandle =>
        match decode attrHandle with
        | .error e => .err e
        | .ok record => AsyncSocket.getInfoLoop decode (acc ++ [record]) rest

/-- AsyncSocket::get_info_vec with the connection state threaded
explicitly, as for the blocking variant. -/
def AsyncSocket.getInfoVecS {A E R RE Router : Type} (decode : A → Except E R)
    (sock : AsyncSocket Router) (interfaceIndex : Option Int) (cmd : Nl80211Cmd)
    (stream : List (Except RE (Nlmsghdr A))) :
    (SentRequest × DumpOutcome E R) × AsyncSocket Router :=
  ((AsyncSocket.sentRequest sock interfaceIndex cmd,
    AsyncSocket.getInfoLoop decode [] stream),
   { router := sock.router, familyId := sock.familyId })

/-- The three public query operations of the facade, used to quantify over
the public surface. -/
inductive QueryOp where
  | opGetInterfacesInfo
  | opGetStationInfo (interfaceIndex : Int)
  | opGetBssInfo (interfaceIndex : Int)
  deriving DecidableEq

/-- The command each facade operation passes to get_info_vec. -/
def QueryOp.cmd : QueryOp → Nl80211Cmd
  | .opGetInterfacesInfo => .cmdGetInterface
  | .opGetStationInfo _ => .cmdGetStation
  | .opGetBssInfo _ => .cmdGetScan

/-- Dispatch a facade operation on a blocking connection. -/
def QueryOp.run {A E R RE Router : Type} (op : QueryOp) (decode : A → Except E R)
    (sock : Socket Router) (stream : List (Except RE (Nlmsghdr A))) :
    (SentRequest × DumpOutcome E R) × Socket Router :=
  match op with
  | .opGetInterfacesInfo => Socket.getInterfacesInfo decode sock stream
  | .opGetStationInfo i => Socket.getStationInfo decode sock i stream
  | .opGetBssInfo i => Socket.getBssInfo decode sock i stream

/-- A message kind that falls into the catch-all arm of the dump loop's
match: none of no-op, error, end-of-dump. -/
def IsOrdinaryKind (k : Nlmsg) : Prop :=
  k ≠ Nlmsg.noop ∧ k ≠ Nlmsg.error ∧ k ≠ Nlmsg.done

instance (k : Nlmsg) : Decidable (IsOrdinaryKind k) := by
  unfold IsOrdinaryKind; infer_instance

/-- A stream item that the dump loop consumes without stopping: a no-op
message, or a catch-all-kind message whose payload is present and decodes
successfully. -/
def ContinuesDump {A E R RE : Type} (decode : A → Except E R)
    (item : Except RE (Nlmsghdr A)) : Prop :=
  ∃ m, item = Except.ok m ∧
    (Nlmsg.fromU16 m.nlType = Nlmsg.noop ∨
      (IsOrdinaryKind (Nlmsg.fromU16 m.nlType) ∧
        ∃ a r, m.payload = some a ∧ decode a = Except.ok r))

/-- The second stream is the first with some number of no-op messages
inserted at arbitrary positions. -/
inductive NoopsInserted {A RE : Type} :
    List (Except RE (Nlmsghdr A)) → List (Except RE (Nlmsghdr A)) → Prop where
  | nil : NoopsInserted [] []
  | keep (item : Except RE (Nlmsghdr A)) {s s' : List (Except RE (Nlmsghdr A))}
      (h : NoopsInserted s s') : NoopsInserted (item :: s) (item :: s')
  | addNoop (m : Nlmsghdr A) {s s' : List (Except RE (Nlmsghdr A))}
      (hm : Nlmsg.fromU16 m.nlType = Nlmsg.noop)
      (h : NoopsInserted s s') : NoopsInserted s (Except.ok m :: s')

/-- Characterisation of the response streams on which the dump loop
panics: skipping no-op messages and successfully decoded catch-all
messages from the front, the first stopping event is a stream item that
is an Err, a kernel error-kind message, or a catch-all-kind message with
no payload body. -/
inductive CausesPanic {A E R RE : Type} (decode : A → Except E R) :
    List (Except RE (Nlmsghdr A)) → Prop where
  | streamErr (e : RE) (rest : List (Except RE (Nlmsghdr A))) :
      CausesPanic decode (Except.error e :: rest)
  | kernelErr (m : Nlmsghdr A) (rest : List (Except RE (Nlmsghdr A)))
      (h : Nlmsg.fromU16 m.nlType = Nlmsg.error) :
      CausesPanic decode (Except.ok m :: rest)
  | missingPayload (m : Nlmsghdr A) (rest : List (Except RE (Nlmsghdr A)))
      (h : IsOrdinaryKind (Nlmsg.fromU16 m.nlType)) (hp : m.payload = none) :
      CausesPanic decode (Except.ok m :: rest)
  | skipNoop (m : Nlmsghdr A) (rest : List (Except RE (Nlmsghdr A)))
      (h : Nlmsg.fromU16 m.nlType = Nlmsg.noop) (ht : CausesPanic decode rest) :
      CausesPanic decode (Except.ok m :: rest)
  | skipRecord (m : Nlmsghdr A) (a : A) (r : R) (rest : List (Except RE (Nlmsghdr A)))
      (h : IsOrdinaryKind (Nlmsg.fromU16 m.nlType)) (hp : m.payload = some a)
      (hd : decode a = Except.ok r) (ht : CausesPanic decode rest) :
      CausesPanic decode (Except.ok m :: rest)

/-- Whether a stream item is a transport-level receive failure (an Err
item of the receive handle). -/
def itemIsStreamErr {A RE : Type} : Except RE (Nlmsghdr A) → Bool
  | .error _ => true
  | .ok _ => false

/-- Whether a stream item is a received message that the loop classifies
as ordinary payload (catch-all kind) yet carries no payload body — the
second panic case the claim enumerates. -/
def itemMissingPayloadBody {A RE : Type} : Except RE (Nlmsghdr A) → Bool
  | .error _ => false
  | .ok m => decide (IsOrdinaryKind (Nlmsg.fromU16 m.nlType)) && m.payload.isNone

/-- Concrete decoder for witnesses: attribute handles are naturals, the
handle 0 fails to decode, every other handle decodes to itself. -/
def decodeW : Nat → Except Unit Nat :=
  fun a => if a = 0 then Except.error () else Except.ok a

/-- Concrete connection for witnesses. -/
def sockW : Socket Unit := { router := (), familyId := 5 }

/-- Concrete cooperative connection for witnesses. -/
def asockW : AsyncSocket Unit := { router := (), familyId := 5 }

/-- Concrete no-op message (NLMSG_NOOP = 1) for witnesses. -/
def noopMsgW : Nlmsghdr Nat := { nlType := 1, payload := some 7 }

/-- Concrete kernel-error message (NLMSG_ERROR = 2) for witnesses; its
payload body is present. -/
def errMsgW : Nlmsghdr Nat := { nlType := 2, payload := some 7 }

/-- Concrete end-of-dump message (NLMSG_DONE = 3) for witnesses. -/
def doneMsgW : Nlmsghdr Nat := { nlType := 3, payload := none }

/-- Concrete ordinary payload message for witnesses: an nl_type outside
the reserved control range, carrying the given attribute handle. -/
def payloadMsgW (a : Nat) : Nlmsghdr Nat := { nlType := 28, payload := some a }

/-- Family resolver that always fails, for the connect witness. -/
def rfBadW : Nat → String → Except Unit Nat := fun _ _ => Except.error ()

/-- Family resolver that always resolves to 7, for the connect witness. -/
def rfGoodW : Nat → String → Except Unit Nat := fun _ _ => Except.ok 7

/-- The connection the connect witness expects on success. -/
def sockC6W : Socket Nat := { router := 0, familyId := 7 }

/-- Witness stream without inserted no-ops: a bare end-of-dump. -/
def streamPlainW : List (Except Unit (Nlmsghdr Nat)) := [Except.ok doneMsgW]

/-- Witness stream with a no-op inserted in front of the end-of-dump. -/
def streamNoopW : List (Except Unit (Nlmsghdr Nat)) :=
  [Except.ok noopMsgW, Except.ok doneMsgW]

theorem getInfoLoop_nil {A E R RE : Type} (decode : A → Except E R) (acc : List R) :
    Socket.getInfoLoop decode acc ([] : List (Except RE (Nlmsghdr A))) = .ok acc := rfl

theorem getInfoLoop_streamErr {A E R RE : Type} (decode : A → Except E R)
    (acc : List R) (e : RE) (rest : List (Except RE (Nlmsghdr A))) :
    Socket.getInfoLoop decode acc (.error e :: rest) =
      .panicked "called Result unwrap on an Err value" := rfl

theorem getInfoLoop_cons_ok {A E R RE : Type} (decode : A → Except E R)
    (acc : List R) (m : Nlmsghdr A) (rest : List (Except RE (Nlmsghdr A))) :
    Socket.getInfoLoop decode acc (.ok m :: rest) =
      (match Nlmsg.fromU16 m.nlType with
       | .noop => Socket.getInfoLoop decode acc rest
       | .error => .panicked "Error"
       | .done => .ok acc
       | _ =>
         match m.payload with
         | none => .panicked "called Option unwrap on a None value"
         | some attrHandle =>
           match decode attrHandle with
           | .error e => .err e
           | .ok record => Socket.getInfoLoop decode (acc ++ [record]) rest) := rfl

theorem getInfoLoop_noop {A E R RE : Type} (decode : A → Except E R)
    (acc : List R) (m : Nlmsghdr A) (rest : List (Except RE (Nlmsghdr A)))
    (h : Nlmsg.fromU16 m.nlType = Nlmsg.noop) :
    Socket.getInfoLoop decode acc (.ok m :: rest) = Socket.getInfoLoop decode acc rest := by
  rw [getInfoLoop_cons_ok, h]

theorem getInfoLoop_errKind {A E R RE : Type} (decode : A → Except E R)
    (acc : List R) (m : Nlmsghdr A) (rest : List (Except RE (Nlmsghdr A)))
    (h : Nlmsg.fromU16 m.nlType = Nlmsg.error) :
    Socket.getInfoLoop decode acc (.ok m :: rest) = .panicked "Error" := by
  rw [getInfoLoop_cons_ok, h]

theorem getInfoLoop_doneKind {A E R RE : Type} (decode : A → Except E R)
    (acc : List R) (m : Nlmsghdr A) (rest : List (Except RE (Nlmsghdr A)))
    (h : Nlmsg.fromU16 m.nlType = Nlmsg.done) :
    Socket.getInfoLoop decode acc (.ok m :: rest) = .ok acc := by
  rw [getInfoLoop_cons_ok, h]

theorem getInfoLoop_ordinary {A E R RE : Type} (decode : A → Except E R)
    (acc : List R) (m : Nlmsghdr A) (rest : List (Except RE (Nlmsghdr A)))
    (h : IsOrdinaryKind (Nlmsg.fromU16 m.nlType)) :
    Socket.getInfoLoop decode acc (.ok m :: rest) =
      (match m.payload with
       | none => .panicked "called Option unwrap on a None value"
       | some attrHandle =>
         match decode attrHandle with
         | .error e => .err e
         | .ok record => Socket.getInfoLoop decode (acc ++ [record]) rest) := by
  obtain ⟨h1, h2, h3⟩ := h
  rw [getInfoLoop_cons_ok]
  cases hk : Nlmsg.fromU16 m.nlType with
  | noop => exact absurd hk h1
  | error => exact absurd hk h2
  | done => exact absurd hk h3
  | overrun => rfl
  | unrecognizedConst v => rfl

theorem getInfoLoop_ordinary_none {A E R RE : Type} (decode : A → Except E R)
    (acc : List R) (m : Nlmsghdr A) (rest : List (Except RE (Nlmsghdr A)))
    (h : IsOrdinaryKind (Nlmsg.fromU16 m.nlType)) (hp : m.payload = none) :
    Socket.getInfoLoop decode acc (.ok m :: rest) =
      .panicked "called Option unwrap on a None value" := by
  rw [getInfoLoop_ordinary _ _ _ _ h, hp]

theorem getInfoLoop_ordinary_decodeErr {A E R RE : Type} (decode : A → Except E R)
    (acc : List R) (m : Nlmsghdr A) (rest : List (Except RE (Nlmsghdr A)))
    {a : A} {e : E} (h : IsOrdinaryKind (Nlmsg.fromU16 m.nlType))
    (hp : m.payload = some a) (hd : decode a = Except.error e) :
    Socket.getInfoLoop decode acc (.ok m :: rest) = .err e := by
  rw [getInfoLoop_ordinary _ _ _ _ h, hp]
  simp only [hd]

theorem getInfoLoop_ordinary_decodeOk {A E R RE : Type} (decode : A → Except E R)
    (acc : List R) (m : Nlmsghdr A) (rest : List (Except RE (Nlmsghdr A)))
    {a : A} {r : R} (h : IsOrdinaryKind (Nlmsg.fromU16 m.nlType))
    (hp : m.payload = some a) (hd : decode a = Except.ok r) :
    Socket.getInfoLoop decode acc (.ok m :: rest) =
      Socket.getInfoLoop decode (acc ++ [r]) rest := by
  rw [getInfoLoop_ordinary _ _ _ _ h, hp]
  simp only [hd]

theorem asyncGetInfoLoop_cons_ok {A E R RE : Type} (decode : A → Except E R)
    (acc : List R) (m : Nlmsghdr A) (rest : List (Except RE (Nlmsghdr A))) :
    AsyncSocket.getInfoLoop decode acc (.ok m :: rest) =
      (match Nlmsg.fromU16 m.nlType with
       | .noop => AsyncSocket.getInfoLoop decode acc rest
       | .error => .panicked "Error"
       | .done => .ok acc
       | _ =>
         match m.payload with
         | none => .panicked "called Option unwrap on a None value"
         | some attrHandle =>
           match decode attrHandle with
           | .error e => .err e
           | .ok record => AsyncSocket.getInfoLoop decode (acc ++ [record]) rest) := rfl

theorem asyncGetInfoLoop_noop {A E R RE : Type} (decode : A → Except E R)
    (acc : List R) (m : Nlmsghdr A) (rest : List (Except RE (Nlmsghdr A)))
    (h : Nlmsg.fromU16 m.nlType = Nlmsg.noop) :
    AsyncSocket.getInfoLoop decode acc (.ok m :: rest) =
      AsyncSocket.getInfoLoop decode acc rest := by
  rw [asyncGetInfoLoop_cons_ok, h]

theorem asyncGetInfoLoop_errKind {A E R RE : Type} (decode : A → Except E R)
    (acc : List R) (m : Nlmsghdr A) (rest : List (Except RE (Nlmsghdr A)))
    (h : Nlmsg.fromU16 m.nlType = Nlmsg.error) :
    AsyncSocket.getInfoLoop decode acc (.ok m :: rest) = .panicked "Error" := by
  rw [asyncGetInfoLoop_cons_ok, h]

theorem asyncGetInfoLoop_doneKind {A E R RE : Type} (decode : A → Except E R)
    (acc : List R) (m : Nlmsghdr A) (rest : List (Except RE (Nlmsghdr A)))
    (h : Nlmsg.fromU16 m.nlType = Nlmsg.done) :
    AsyncSocket.getInfoLoop decode acc (.ok m :: rest) = .ok acc := by
  rw [asyncGetInfoLoop_cons_ok, h]

theorem asyncGetInfoLoop_ordinary {A E R RE : Type} (decode : A → Except E R)
    (acc : List R) (m : Nlmsghdr A) (rest : List (Except RE (Nlmsghdr A)))
    (h : IsOrdinaryKind (Nlmsg.fromU16 m.nlType)) :
    AsyncSocket.getInfoLoop decode acc (.ok m :: rest) =
      (match m.payload with
       | none => .panicked "called Option unwrap on a None value"
       | some attrHandle =>
         match decode attrHandle with
         | .error e => .err e
         | .ok record => AsyncSocket.getInfoLoop decode (acc ++ [record]) rest) := by
  obtain ⟨h1, h2, h3⟩ := h
  rw [asyncGetInfoLoop_cons_ok]
  cases hk : Nlmsg.fromU16 m.nlType with
  | noop => exact absurd hk h1
  | error => exact absurd hk h2
  | done => exact absurd hk h3
  | overrun => rfl
  | unrecognizedConst v => rfl

theorem asyncGetInfoLoop_ordinary_none {A E R RE : Type} (decode : A → Except E R)
    (acc : List R) (m : Nlmsghdr A) (rest : List (Except RE (Nlmsghdr A)))
    (h : IsOrdinaryKind (Nlmsg.fromU16 m.nlType)) (hp : m.payload = none) :
    AsyncSocket.getInfoLoop decode acc (.ok m :: rest) =
      .panicked "called Option unwrap on a None value" := by
  rw [asyncGetInfoLoop_ordinary _ _ _ _ h, hp]

theorem asyncGetInfoLoop_ordinary_decodeErr {A E R RE : Type} (decode : A → Except E R)
    (acc : List R) (m : Nlmsghdr A) (rest : List (Except RE (Nlmsghdr A)))
    {a : A} {e : E} (h : IsOrdinaryKind (Nlmsg.fromU16 m.nlType))
    (hp : m.payload = some a) (hd : decode a = Except.error e) :
    AsyncSocket.getInfoLoop decode acc (.ok m :: rest) = .err e := by
  rw [asyncGetInfoLoop_ordinary _ _ _ _ h, hp]
  simp only [hd]

theorem asyncGetInfoLoop_ordinary_decodeOk {A E R RE : Type} (decode : A → Except E R)
    (acc : List R) (m : Nlmsghdr A) (rest : List (Except RE (Nlmsghdr A)))
    {a : A} {r : R} (h : IsOrdinaryKind (Nlmsg.fromU16 m.nlType))
    (hp : m.payload = some a) (hd : decode a = Except.ok r) :
    AsyncSocket.getInfoLoop decode acc (.ok m :: rest) =
      AsyncSocket.getInfoLoop decode (acc ++ [r]) rest := by
  rw [asyncGetInfoLoop_ordinary _ _ _ _ h, hp]
  simp only [hd]

theorem kind_overrun_ordinary (t : Nat) (h : Nlmsg.fromU16 t = Nlmsg.overrun) :
    IsOrdinaryKind (Nlmsg.fromU16 t) := by
  rw [h]; exact ⟨by simp, by simp, by simp⟩

theorem kind_unrecognized_ordinary (t v : Nat)
    (h : Nlmsg.fromU16 t = Nlmsg.unrecognizedConst v) :
    IsOrdinaryKind (Nlmsg.fromU16 t) := by
  rw [h]; exact ⟨by simp, by simp, by simp⟩

theorem asyncLoop_eq_loop {A E R RE : Type} (decode : A → Except E R) :
    ∀ (stream : List (Except RE (Nlmsghdr A))) (acc : List R),
      AsyncSocket.getInfoLoop decode acc stream = Socket.getInfoLoop decode acc stream := by
  intro stream
  induction stream with
  | nil => intro acc; rfl
  | cons item rest ih =>
    intro acc
    cases item with
    | error e => rfl
    | ok m =>
      cases hk : Nlmsg.fromU16 m.nlType with
      | noop =>
        rw [asyncGetInfoLoop_noop _ _ _ _ hk, getInfoLoop_noop _ _ _ _ hk]
        exact ih acc
      | error =>
        rw [asyncGetInfoLoop_errKind _ _ _ _ hk, getInfoLoop_errKind _ _ _ _ hk]
      | done =>
        rw [asyncGetInfoLoop_doneKind _ _ _ _ hk, getInfoLoop_doneKind _ _ _ _ hk]
      | overrun =>
        have hord := kind_overrun_ordinary m.nlType hk
        cases hp : m.payload with
        | none =>
          rw [asyncGetInfoLoop_ordinary_none _ _ _ _ hord hp,
            getInfoLoop_ordinary_none _ _ _ _ hord hp]
        | some a =>
          cases hd : decode a with
          | error e =>
            rw [asyncGetInfoLoop_ordinary_decodeErr _ _ _ _ hord hp hd,
              getInfoLoop_ordinary_decodeErr _ _ _ _ hord hp hd]
          | ok r =>
            rw [asyncGetInfoLoop_ordinary_decodeOk _ _ _ _ hord hp hd,
              getInfoLoop_ordinary_decodeOk _ _ _ _ hord hp hd]
            exact ih (acc ++ [r])
      | unrecognizedConst v =>
        have hord := kind_unrecognized_ordinary m.nlType v hk
        cases hp : m.payload with
        | none =>
          rw [asyncGetInfoLoop_ordinary_none _ _ _ _ hord hp,
            getInfoLoop_ordinary_none _ _ _ _ hord hp]
        | some a =>
          cases hd : decode a with
          | error e =>
            rw [asyncGetInfoLoop_ordinary_decodeErr _ _ _ _ hord hp hd,
              getInfoLoop_ordinary_decodeErr _ _ _ _ hord hp hd]
          | ok r =>
            rw [asyncGetInfoLoop_ordinary_decodeOk _ _ _ _ hord hp hd,
              getInfoLoop_ordinary_decodeOk _ _ _ _ hord hp hd]
            exact ih (acc ++ [r])

theorem getInfoLoop_records_front {A E R RE : Type} (decode : A → Except E R)
    {msgs : List (Nlmsghdr A)} {recs : List R}
    (h : List.Forall₂ (fun m r => IsOrdinaryKind (Nlmsg.fromU16 m.nlType) ∧
      ∃ a, m.payload = some a ∧ decode a = Except.ok r) msgs recs) :
    ∀ (acc : List R) (rest : List (Except RE (Nlmsghdr A))),
      Socket.getInfoLoop decode acc (msgs.map Except.ok ++ rest) =
        Socket.getInfoLoop decode (acc ++ recs) rest := by
  induction h with
  | nil => intro acc rest; simp
  | cons hmr htail ih =>
    intro acc rest
    obtain ⟨hord, a, hpay, hdec⟩ := hmr
    simp only [List.map_cons, List.cons_append]
    rw [getInfoLoop_ordinary_decodeOk _ _ _ _ hord hpay hdec, ih (acc ++ [_]) rest]
    simp

theorem getInfoLoop_continues_front {A E R RE : Type} (decode : A → Except E R) :
    ∀ (pre : List (Except RE (Nlmsghdr A))),
      (∀ item ∈ pre, ContinuesDump decode item) →
      ∀ (acc : List R) (rest : List (Except RE (Nlmsghdr A))),
        ∃ acc', Socket.getInfoLoop decode acc (pre ++ rest) =
          Socket.getInfoLoop decode acc' rest := by
  intro pre
  induction pre with
  | nil => intro _ acc rest; exact ⟨acc, rfl⟩
  | cons item tail ih =>
    intro hall acc rest
    have htail : ∀ i ∈ tail, ContinuesDump decode i :=
      fun i hi => hall i (List.mem_cons_of_mem item hi)
    obtain ⟨m, rfl, hkind⟩ := hall item (List.mem_cons_self item tail)
    rcases hkind with hnoop | ⟨hord, a, r, hpay, hdec⟩
    · rw [List.cons_append, getInfoLoop_noop _ _ _ _ hnoop]
      exact ih htail acc rest
    · rw [List.cons_append, getInfoLoop_ordinary_decodeOk _ _ _ _ hord hpay hdec]
      exact ih htail (acc ++ [r]) rest

theorem loop_panicked_causesPanic {A E R RE : Type} (decode : A → Except E R) :
    ∀ (stream : List (Except RE (Nlmsghdr A))) (acc : List R) (message : String),
      Socket.getInfoLoop decode acc stream = DumpOutcome.panicked message →
      CausesPanic decode stream := by
  intro stream
  induction stream with
  | nil =>
    intro acc message h
    exact absurd h (by simp [getInfoLoop_nil])
  | cons item rest ih =>
    intro acc message h
    cases item with
    | error e => exact CausesPanic.streamErr e rest
    | ok m =>
      cases hk : Nlmsg.fromU16 m.nlType with
      | noop =>
        rw [getInfoLoop_noop _ _ _ _ hk] at h
        exact CausesPanic.skipNoop m rest hk (ih acc message h)
      | error => exact CausesPanic.kernelErr m rest hk
      | done =>
        rw [getInfoLoop_doneKind _ _ _ _ hk] at h
        exact absurd h (by simp)
      | overrun =>
        have hord := kind_overrun_ordinary m.nlType hk
        cases hp : m.payload with
        | none => exact CausesPanic.missingPayload m rest hord hp
        | some a =>
          cases hd : decode a with
          | error e =>
            rw [getInfoLoop_ordinary_decodeErr _ _ _ _ hord hp hd] at h
            exact absurd h (by simp)
          | ok r =>
            rw [getInfoLoop_ordinary_decodeOk _ _ _ _ hord hp hd] at h
            exact CausesPanic.skipRecord m a r rest hord hp hd (ih _ message h)
      | unrecognizedConst v =>
        have hord := kind_unrecognized_ordinary m.nlType v hk
        cases hp : m.payload with
        | none => exact CausesPanic.missingPayload m rest hord hp
        | some a =>
          cases hd : decode a with
          | error e =>
            rw [getInfoLoop_ordinary_decodeErr _ _ _ _ hord hp hd] at h
            exact absurd h (by simp)
          | ok r =>
            rw [getInfoLoop_ordinary_decodeOk _ _ _ _ hord hp hd] at h
            exact CausesPanic.skipRecord m a r rest hord hp hd (ih _ message h)

theorem causesPanic_loop_panicked {A E R RE : Type} (decode : A → Except E R)
    {stream : List (Except RE (Nlmsghdr A))} (h : CausesPanic decode stream) :
    ∀ acc : List R, ∃ message,
      Socket.getInfoLoop decode acc stream = DumpOutcome.panicked message := by
  induction h with
  | streamErr e rest =>
    intro acc
    exact ⟨"called Result unwrap on an Err value", getInfoLoop_streamErr decode acc e rest⟩
  | kernelErr m rest hk =>
    intro acc
    exact ⟨"Error", getInfoLoop_errKind decode acc m rest hk⟩
  | missingPayload m rest hord hp =>
    intro acc
    exact ⟨"called Option unwrap on a None value",
      getInfoLoop_ordinary_none decode acc m rest hord hp⟩
  | skipNoop m rest hk ht ih =>
    intro acc
    obtain ⟨message, hmsg⟩ := ih acc
    exact ⟨message, by rw [getInfoLoop_noop _ _ _ _ hk]; exact hmsg⟩
  | skipRecord m a r rest hord hp hd ht ih =>
    intro acc
    obtain ⟨message, hmsg⟩ := ih (acc ++ [r])
    exact ⟨message, by
      rw [getInfoLoop_ordinary_decodeOk _ _ _ _ hord hp hd]; exact hmsg⟩
theorem noopsInserted_loop_eq {A E R RE : Type} (decode : A → Except E R)
    {s s' : List (Except RE (Nlmsghdr A))} (h : NoopsInserted s s') :
    ∀ acc : List R,
      Socket.getInfoLoop decode acc s' = Socket.getInfoLoop decode acc s := by
  induction h with
  | nil => intro acc; rfl
  | keep item hrec ih =>
    intro acc
    cases item with
    | error e => rfl
    | ok m =>
      cases hk : Nlmsg.fromU16 m.nlType with
      | noop =>
        rw [getInfoLoop_noop _ _ _ _ hk, getInfoLoop_noop _ _ _ _ hk]
        exact ih acc
      | error => rw [getInfoLoop_errKind _ _ _ _ hk, getInfoLoop_errKind _ _ _ _ hk]
      | done => rw [getInfoLoop_doneKind _ _ _ _ hk, getInfoLoop_doneKind _ _ _ _ hk]
      | overrun =>
        have hord := kind_overrun_ordinary m.nlType hk
        cases hp : m.payload with
        | none =>
          rw [getInfoLoop_ordinary_none _ _ _ _ hord hp,
            getInfoLoop_ordinary_none _ _ _ _ hord hp]
        | some a =>
          cases hd : decode a with
          | error e =>
            rw [getInfoLoop_ordinary_decodeErr _ _ _ _ hord hp hd,
              getInfoLoop_ordinary_decodeErr _ _ _ _ hord hp hd]
          | ok r =>
            rw [getInfoLoop_ordinary_decodeOk _ _ _ _ hord hp hd,
              getInfoLoop_ordinary_decodeOk _ _ _ _ hord hp hd]
            exact ih (acc ++ [r])
      | unrecognizedConst v =>
        have hord := kind_unrecognized_ordinary m.nlType v hk
        cases hp : m.payload with
        | none =>
          rw [getInfoLoop_ordinary_none _ _ _ _ hord hp,
            getInfoLoop_ordinary_none _ _ _ _ hord hp]
        | some a =>
          cases hd : decode a with
          | error e =>
            rw [getInfoLoop_ordinary_decodeErr _ _ _ _ hord hp hd,
              getInfoLoop_ordinary_decodeErr _ _ _ _ hord hp hd]
          | ok r =>
            rw [getInfoLoop_ordinary_decodeOk _ _ _ _ hord hp hd,
              getInfoLoop_ordinary_decodeOk _ _ _ _ hord hp hd]
            exact ih (acc ++ [r])
  | addNoop m hm hrec ih =>
    intro acc
    rw [getInfoLoop_noop _ _ _ _ hm]
    exact ih acc

/-- C1: the claim says a kernel-error message before any end-of-dump must
yield a typed error result and never a process-terminating fault; on the
failing input (a kernel error-kind message followed by an end-of-dump)
the dump loop executes the panic branch of the match — panic with the
literal message "Error" — instead of returning a typed error. -/
theorem c1_error_message_panic_eval :
    (Socket.getInfoVecS decodeW sockW none Nl80211Cmd.cmdGetInterface
        ([Except.ok errMsgW, Except.ok doneMsgW] : List (Except Unit (Nlmsghdr Nat)))).1.2 =
      DumpOutcome.panicked "Error" ∧
    (Socket.getInfoVecS decodeW sockW none Nl80211Cmd.cmdGetInterface
        ([Except.ok errMsgW, Except.ok doneMsgW] : List (Except Unit (Nlmsghdr Nat)))).1.2 ≠
      DumpOutcome.err () := by
  exact ⟨by decide, by decide⟩

/-- C2: a response stream of N ordinary-payload messages, each decoding
successfully, followed by one end-of-dump message makes get_info_vec
return Ok with exactly those N records in emission order (the Forall₂
hypothesis forces a 1:1, order-preserving correspondence between messages
and records; N = 0 gives the empty list). -/
theorem c2_n_payloads_then_done {A E R RE Router : Type} (decode : A → Except E R)
    (sock : Socket Router) (interfaceIndex : Option Int) (cmd : Nl80211Cmd)
    (msgs : List (Nlmsghdr A)) (recs : List R) (d : Nlmsghdr A)
    (hmsgs : List.Forall₂ (fun m r => IsOrdinaryKind (Nlmsg.fromU16 m.nlType) ∧
      ∃ a, m.payload = some a ∧ decode a = Except.ok r) msgs recs)
    (hd : Nlmsg.fromU16 d.nlType = Nlmsg.done) :
    (Socket.getInfoVecS decode sock interfaceIndex cmd
        ((msgs.map Except.ok ++ [Except.ok d]) : List (Except RE (Nlmsghdr A)))).1.2 =
      DumpOutcome.ok recs := by
  show Socket.getInfoLoop decode [] (msgs.map Except.ok ++ [Except.ok d]) =
    DumpOutcome.ok recs
  rw [getInfoLoop_records_front decode hmsgs [] [Except.ok d],
    getInfoLoop_doneKind _ _ _ _ hd]
  simp

/-- Witness for C2 at N = 2 and at N = 0. -/
theorem c2_witness :
    (Socket.getInfoVecS decodeW sockW none Nl80211Cmd.cmdGetInterface
        (([payloadMsgW 5, payloadMsgW 9].map Except.ok ++ [Except.ok doneMsgW]) :
          List (Except Unit (Nlmsghdr Nat)))).1.2 = DumpOutcome.ok [5, 9] ∧
    (Socket.getInfoVecS decodeW sockW none Nl80211Cmd.cmdGetInterface
        ((([] : List (Nlmsghdr Nat)).map Except.ok ++ [Except.ok doneMsgW]) :
          List (Except Unit (Nlmsghdr Nat)))).1.2 = DumpOutcome.ok [] := by
  constructor
  · exact c2_n_payloads_then_done decodeW sockW none Nl80211Cmd.cmdGetInterface
      [payloadMsgW 5, payloadMsgW 9] [5, 9] doneMsgW
      (List.Forall₂.cons ⟨by decide, 5, rfl, rfl⟩
        (List.Forall₂.cons ⟨by decide, 9, rfl, rfl⟩ List.Forall₂.nil))
      (by decide)
  · exact c2_n_payloads_then_done decodeW sockW none Nl80211Cmd.cmdGetInterface
      [] [] doneMsgW List.Forall₂.nil (by decide)

/-- C3: across the public facade, the request sent carries an
interface-index filter attribute exactly when the command is get-station
or get-scan; get_interfaces_info sends an empty attribute list, while
get_station_info and get_bss_info send exactly one AttrIfindex attribute
whose payload is the caller-supplied interface index. -/
theorem c3_filter_iff_station_or_scan {A E R RE Router : Type} (op : QueryOp)
    (decode : A → Except E R) (sock : Socket Router)
    (stream : List (Except RE (Nlmsghdr A))) :
    ((QueryOp.run op decode sock stream).1.1.payload.attrs ≠ [] ↔
      (QueryOp.cmd op = Nl80211Cmd.cmdGetStation ∨
        QueryOp.cmd op = Nl80211Cmd.cmdGetScan)) ∧
    (QueryOp.run op decode sock stream).1.1.payload.attrs =
      (match op with
       | QueryOp.opGetInterfacesInfo => []
       | QueryOp.opGetStationInfo i =>
         [{ nlaType := Nl80211Attr.attrIfindex, nlaPayload := i }]
       | QueryOp.opGetBssInfo i =>
         [{ nlaType := Nl80211Attr.attrIfindex, nlaPayload := i }]) := by
  cases op <;>
    simp [QueryOp.run, QueryOp.cmd, Socket.getInterfacesInfo, Socket.getStationInfo,
      Socket.getBssInfo, Socket.getInfoVecS, Socket.sentRequest]

/-- C4: the blocking and the cooperative variants are observationally
equivalent: on connections with the same resolved family identifier and
for every decode function, interface-index filter, command and response
stream, they send the same request and produce the same dump outcome. -/
theorem c4_async_blocking_equiv {A E R RE Router : Type} (decode : A → Except E R)
    (sock : Socket Router) (asock : AsyncSocket Router)
    (interfaceIndex : Option Int) (cmd : Nl80211Cmd)
    (stream : List (Except RE (Nlmsghdr A)))
    (hfam : asock.familyId = sock.familyId) :
    (AsyncSocket.getInfoVecS decode asock interfaceIndex cmd stream).1 =
      (Socket.getInfoVecS decode sock interfaceIndex cmd stream).1 := by
  simp only [AsyncSocket.getInfoVecS, Socket.getInfoVecS, AsyncSocket.sentRequest,
    Socket.sentRequest, asyncLoop_eq_loop, hfam]

/-- Witness for C4 on a concrete station dump. -/
theorem c4_witness :
    asockW.familyId = sockW.familyId ∧
    (AsyncSocket.getInfoVecS decodeW asockW (some 3) Nl80211Cmd.cmdGetStation
        ([Except.ok (payloadMsgW 5), Except.ok doneMsgW] :
          List (Except Unit (Nlmsghdr Nat)))).1 =
      (Socket.getInfoVecS decodeW sockW (some 3) Nl80211Cmd.cmdGetStation
        ([Except.ok (payloadMsgW 5), Except.ok doneMsgW] :
          List (Except Unit (Nlmsghdr Nat)))).1 :=
  ⟨rfl, c4_async_blocking_equiv decodeW sockW asockW (some 3) Nl80211Cmd.cmdGetStation
    [Except.ok (payloadMsgW 5), Except.ok doneMsgW] rfl⟩

/-- C5: when the dump loop reaches an ordinary-payload message whose
attribute set fails to decode (every earlier stream item being consumed
without stopping), get_info_vec returns the typed decode error; the err
outcome carries no record list, so no partial list and no partially
decoded record is exposed. -/
theorem c5_decode_failure_aborts {A E R RE Router : Type} (decode : A → Except E R)
    (sock : Socket Router) (interfaceIndex : Option Int) (cmd : Nl80211Cmd)
    (pre : List (Except RE (Nlmsghdr A))) (m : Nlmsghdr A) (a : A) (e : E)
    (suffix : List (Except RE (Nlmsghdr A)))
    (hpre : ∀ item ∈ pre, ContinuesDump decode item)
    (hord : IsOrdinaryKind (Nlmsg.fromU16 m.nlType))
    (hpay : m.payload = some a) (hdec : decode a = Except.error e) :
    (Socket.getInfoVecS decode sock interfaceIndex cmd
        (pre ++ Except.ok m :: suffix)).1.2 = DumpOutcome.err e := by
  show Socket.getInfoLoop decode [] (pre ++ Except.ok m :: suffix) = DumpOutcome.err e
  obtain ⟨acc2, hacc⟩ :=
    getInfoLoop_continues_front decode pre hpre [] (Except.ok m :: suffix)
  rw [hacc, getInfoLoop_ordinary_decodeErr _ _ _ _ hord hpay hdec]

/-- Witness for C5: a no-op and a good record precede the undecodable
message. -/
theorem c5_witness :
    (∀ item ∈ ([Except.ok noopMsgW, Except.ok (payloadMsgW 5)] :
        List (Except Unit (Nlmsghdr Nat))), ContinuesDump decodeW item) ∧
    (Socket.getInfoVecS decodeW sockW none Nl80211Cmd.cmdGetInterface
        (([Except.ok noopMsgW, Except.ok (payloadMsgW 5)] ++
          Except.ok (payloadMsgW 0) :: [Except.ok doneMsgW]) :
          List (Except Unit (Nlmsghdr Nat)))).1.2 = DumpOutcome.err () := by
  have hpre : ∀ item ∈ ([Except.ok noopMsgW, Except.ok (payloadMsgW 5)] :
      List (Except Unit (Nlmsghdr Nat))), ContinuesDump decodeW item := by
    intro item hitem
    simp only [List.mem_cons, List.not_mem_nil, or_false] at hitem
    rcases hitem with rfl | rfl
    · exact ⟨noopMsgW, rfl, Or.inl (by decide)⟩
    · exact ⟨payloadMsgW 5, rfl, Or.inr ⟨by decide, 5, 5, rfl, rfl⟩⟩
  exact ⟨hpre, c5_decode_failure_aborts decodeW sockW none Nl80211Cmd.cmdGetInterface
    [Except.ok noopMsgW, Except.ok (payloadMsgW 5)] (payloadMsgW 0) 0 ()
    [Except.ok doneMsgW] hpre (by decide) rfl rfl⟩

/-- C6: if family resolution fails, connect returns that error and no
connection value exists; conversely every successfully constructed
connection holds exactly the family identifier the resolver returned for
the well-known name, together with the transport handle. -/
theorem c6_connect_resolution {Router E : Type} (ct : Except E (Router × Unit))
    (resolveGenlFamily : Router → String → Except E Nat) :
    (∀ (r : Router) (u : Unit) (e : E), ct = Except.ok (r, u) →
      resolveGenlFamily r NL_80211_GENL_NAME = Except.error e →
      Socket.connect ct resolveGenlFamily = Except.error e) ∧
    (∀ s : Socket Router, Socket.connect ct resolveGenlFamily = Except.ok s →
      ∃ r u, ct = Except.ok (r, u) ∧
        resolveGenlFamily r NL_80211_GENL_NAME = Except.ok s.familyId ∧
        s.router = r) := by
  constructor
  · intro r u e hct hres
    subst hct
    simp [Socket.connect, hres]
  · intro s hs
    cases hct : ct with
    | error e =>
      rw [hct] at hs
      simp [Socket.connect] at hs
    | ok p =>
      obtain ⟨r, u⟩ := p
      rw [hct] at hs
      cases hres : resolveGenlFamily r NL_80211_GENL_NAME with
      | error e =>
        simp only [Socket.connect, hres] at hs
        exact Except.noConfusion hs
      | ok familyId =>
        simp only [Socket.connect, hres] at hs
        injection hs with hs2
        subst hs2
        exact ⟨r, u, rfl, hres, rfl⟩

/-- Witness for C6: a failing resolver aborts connect; a successful
resolver yields a connection carrying the resolved identifier. -/
theorem c6_witness :
    Socket.connect (Except.ok ((0 : Nat), ())) rfBadW = Except.error () ∧
    (∃ r u, (Except.ok ((0 : Nat), ()) : Except Unit (Nat × Unit)) = Except.ok (r, u) ∧
      rfGoodW r NL_80211_GENL_NAME = Except.ok sockC6W.familyId ∧
      sockC6W.router = r) :=
  ⟨(c6_connect_resolution (Except.ok ((0 : Nat), ())) rfBadW).1 0 () () rfl rfl,
   (c6_connect_resolution (Except.ok ((0 : Nat), ())) rfGoodW).2 sockC6W rfl⟩

/-- C7: inserting any number of no-op messages at any positions of the
response stream leaves the whole result of get_info_vec unchanged —
request, outcome and connection state. -/
theorem c7_noop_insertion_invariant {A E R RE Router : Type} (decode : A → Except E R)
    (sock : Socket Router) (interfaceIndex : Option Int) (cmd : Nl80211Cmd)
    {s s' : List (Except RE (Nlmsghdr A))} (h : NoopsInserted s s') :
    Socket.getInfoVecS decode sock interfaceIndex cmd s' =
      Socket.getInfoVecS decode sock interfaceIndex cmd s := by
  simp only [Socket.getInfoVecS]
  rw [noopsInserted_loop_eq decode h]

/-- Witness for C7: a no-op inserted in front of the end-of-dump. -/
theorem c7_witness :
    NoopsInserted streamPlainW streamNoopW ∧
    Socket.getInfoVecS decodeW sockW none Nl80211Cmd.cmdGetInterface streamNoopW =
      Socket.getInfoVecS decodeW sockW none Nl80211Cmd.cmdGetInterface streamPlainW := by
  have h : NoopsInserted streamPlainW streamNoopW :=
    NoopsInserted.addNoop noopMsgW (by decide)
      (NoopsInserted.keep (Except.ok doneMsgW) NoopsInserted.nil)
  exact ⟨h, c7_noop_insertion_invariant decodeW sockW none Nl80211Cmd.cmdGetInterface h⟩

/-- C8: every facade query hands back the connection with the same
transport handle and resolved family identifier it was given, whatever
the stream (success, typed error or panic). -/
theorem c8_queries_preserve_socket {A E R RE Router : Type} (op : QueryOp)
    (decode : A → Except E R) (sock : Socket Router)
    (stream : List (Except RE (Nlmsghdr A))) :
    (QueryOp.run op decode sock stream).2 = sock := by
  cases op <;> rfl

/-- C9: a received message whose kind discriminant is none of no-op,
error or end-of-dump — overrun or any unrecognized kind value included —
falls into the catch-all arm: its payload is decoded and the record is
appended to the accumulator. -/
theorem c9_other_kinds_treated_as_payload {A E R RE : Type} (decode : A → Except E R)
    (t : Nat) (hne : Nlmsg.fromU16 t ≠ Nlmsg.noop)
    (herr : Nlmsg.fromU16 t ≠ Nlmsg.error) (hdone : Nlmsg.fromU16 t ≠ Nlmsg.done)
    (a : A) (r : R) (hdec : decode a = Except.ok r) (acc : List R)
    (rest : List (Except RE (Nlmsghdr A))) :
    Socket.getInfoLoop decode acc (Except.ok { nlType := t, payload := some a } :: rest) =
      Socket.getInfoLoop decode (acc ++ [r]) rest :=
  getInfoLoop_ordinary_decodeOk decode acc { nlType := t, payload := some a } rest
    ⟨hne, herr, hdone⟩ rfl hdec

/-- Witness for C9 at the overrun kind (nl_type = 4), which is outside
the spec's four-way classification yet is decoded and appended. -/
theorem c9_witness :
    (Nlmsg.fromU16 4 ≠ Nlmsg.noop ∧ Nlmsg.fromU16 4 ≠ Nlmsg.error ∧
      Nlmsg.fromU16 4 ≠ Nlmsg.done) ∧
    Socket.getInfoLoop decodeW ([] : List Nat)
        (Except.ok { nlType := 4, payload := some 5 } ::
          ([Except.ok doneMsgW] : List (Except Unit (Nlmsghdr Nat)))) =
      Socket.getInfoLoop decodeW [5]
        ([Except.ok doneMsgW] : List (Except Unit (Nlmsghdr Nat))) :=
  ⟨by decide, c9_other_kinds_treated_as_payload decodeW 4 (by decide) (by decide)
    (by decide) 5 5 rfl [] [Except.ok doneMsgW]⟩

/-- C10 (amended): get_info_vec panics exactly when, after skipping
no-op messages and successfully decoded catch-all messages from the front
of the stream, the first stopping event is one of three cases: a stream
item that is an Err, an ordinary-payload message with no payload body, or
a kernel error-kind message (the explicit panic, a third case the
original claim omits). -/
theorem c10_panic_characterization {A E R RE : Type} (decode : A → Except E R)
    (acc : List R) (stream : List (Except RE (Nlmsghdr A))) :
    (∃ message, Socket.getInfoLoop decode acc stream = DumpOutcome.panicked message) ↔
      CausesPanic decode stream := by
  constructor
  · rintro ⟨message, h⟩
    exact loop_panicked_causesPanic decode stream acc message h
  · intro h
    exact causesPanic_loop_panicked decode h acc

/-- C10 counterexample: a stream whose items are neither receive failures
nor payload-classified messages lacking a payload body still panics — the
kernel error-kind message is a third panic case, so the claim's two-case
enumeration is false. -/
theorem c10_counterexample :
    Socket.getInfoLoop decodeW ([] : List Nat)
        ([Except.ok errMsgW, Except.ok doneMsgW] : List (Except Unit (Nlmsghdr Nat))) =
      DumpOutcome.panicked "Error" ∧
    ([Except.ok errMsgW, Except.ok doneMsgW] : List (Except Unit (Nlmsghdr Nat))).all
        (fun item => !itemIsStreamErr item && !itemMissingPayloadBody item) = true := by
  exact ⟨by decide, by decide⟩

end NlWifi
